import Mathlib

/-!
Shallow embedding of the Excel-fill core of the EvalE6 server
(`backend/server.js`): the per-filename lock (`acquireExcelLock` /
`releaseExcelLock`), the cell-fill engine of the
`POST /api/eleves/:id/remplir-excel` handler, the formula-replication
fallback of `GET /api/eleves/:id/note-calculee/:semestre`, and the
cooperative (single-threaded, suspension-only-at-await) scheduling of
concurrent handler invocations.

Conventions of the embedding:
* JS `Map` keyed by filename is a `List String` of present keys
  (`Map.set` adds the key when absent, `Map.delete` removes it).
* JS numbers are `ℚ` (the arithmetic in scope is exact decimal / small
  integer arithmetic; `Math.round(x*100)/100` becomes `round2`).
* A spreadsheet sheet is a total map from address strings ("C21") to
  cell values; `undefined` / empty cells are `CellVal.empty`, a numeric
  cell is `CellVal.num`, a text cell `CellVal.str`, and JS `NaN`
  (producible by `parseFloat` on a non-numeric `note_finale`) is
  `CellVal.nan`.  String cells are not given a numeric interpretation
  (the template stores weights as numbers, not numeric strings).
-/

/-- Value stored in one spreadsheet cell. -/
inductive CellVal where
  | str (s : String)
  | num (q : ℚ)
  | nan
  | empty
deriving DecidableEq, Repr

/-- A sheet: total map from cell-address strings such as "C21" to values. -/
def Sheet : Type := String → CellVal

/-- Point update of a sheet (what `sheet.cell(addr).value(v)` does). -/
def Sheet.update (s : Sheet) (a : String) (v : CellVal) : Sheet :=
  fun x => if x = a then v else s x

/- ------------------------------------------------------------------
   Concurrency gate state: `excelLocks` map + `activeExcelOperations`.
   `server.js` lines 33-68.
   ------------------------------------------------------------------ -/

/-- The process-wide mutable lock state: the key set of the `excelLocks`
`Map` and the `activeExcelOperations` counter (a JS number; `Int` here,
release clamps it at 0). -/
structure LockState where
  locks : List String
  active : Int
deriving DecidableEq, Repr

/-- State at process start: `excelLocks` empty, counter 0. -/
def initialLockState : LockState := ⟨[], 0⟩

/-- JS `Map.set` on the key set: adds the key when absent. -/
def mapSet (l : List String) (f : String) : List String :=
  if f ∈ l then l else f :: l

/-- JS `Map.delete` on the key set: removes the key. -/
def mapDelete (l : List String) (f : String) : List String :=
  l.filter (fun x => x ≠ f)

/-- The decrement `activeExcelOperations--` followed by the clamp
`if (activeExcelOperations < 0) activeExcelOperations = 0;`. -/
def relCounter (n : Int) : Int :=
  if n - 1 < 0 then 0 else n - 1

/-- Source `releaseExcelLock(filename)` (server.js lines 64-68): delete the
lock entry, decrement the counter, clamp at 0. -/
def releaseExcelLock (f : String) (s : LockState) : LockState :=
  ⟨mapDelete s.locks f, relCounter s.active⟩

/-- The state mutation performed by `acquireExcelLock` once both wait
loops have been passed (lines 59-60): increment the counter and set the
lock entry. -/
def acquireAction (f : String) (s : LockState) : LockState :=
  ⟨mapSet s.locks f, s.active + 1⟩

/-- One call to the gate, for reasoning about call sequences. -/
inductive LockOp where
  | acq (f : String)
  | rel (f : String)

/-- Apply a sequence of gate calls to a lock state. -/
def applyOps (ops : List LockOp) (s : LockState) : LockState :=
  match ops with
  | [] => s
  | LockOp.acq f :: rest => applyOps rest (acquireAction f s)
  | LockOp.rel f :: rest => applyOps rest (releaseExcelLock f s)

lemma relCounter_nonneg (n : Int) : 0 ≤ relCounter n := by
  unfold relCounter
  split
  · exact le_refl 0
  · omega

lemma relCounter_le (n : Int) (h : n ≤ 4) : relCounter n ≤ 4 := by
  unfold relCounter
  split <;> omega

lemma applyOps_active_nonneg (ops : List LockOp) (s : LockState)
    (hs : 0 ≤ s.active) : 0 ≤ (applyOps ops s).active := by
  induction ops generalizing s with
  | nil => exact hs
  | cons op rest ih =>
    cases op with
    | acq f =>
      exact ih (acquireAction f s) (by simp [acquireAction]; omega)
    | rel f =>
      exact ih (releaseExcelLock f s) (relCounter_nonneg s.active)

lemma mapDelete_idem (l : List String) (f : String) :
    mapDelete (mapDelete l f) f = mapDelete l f := by
  simp [mapDelete, List.filter_filter]

/- ------------------------------------------------------------------
   C8: releaseExcelLock behaviour.
   ------------------------------------------------------------------ -/

/-- C8 (counterexample): `releaseExcelLock` is NOT idempotent on the
counter.  With two locks held ("f" and "g", counter 2), releasing "f"
twice leaves the counter at 0, not at the value 1 it had after the
first release: the second call decrements again. -/
theorem C8_counterexample :
    releaseExcelLock "f" (releaseExcelLock "f" (⟨["f", "g"], 2⟩ : LockState)) ≠
      releaseExcelLock "f" (⟨["f", "g"], 2⟩ : LockState) ∧
    (releaseExcelLock "f" (releaseExcelLock "f" (⟨["f", "g"], 2⟩ : LockState))).active = 0 ∧
    (releaseExcelLock "f" (⟨["f", "g"], 2⟩ : LockState)).active = 1 := by
  refine ⟨?_, by decide, by decide⟩
  intro h
  have := congrArg LockState.active h
  simp [releaseExcelLock, relCounter] at this

/-- C8 (amended): `releaseExcelLock` removes the filename's lock entry
and decrements the counter with a clamp at 0.  It is idempotent on the
lock table (a second call for the same filename leaves the table
unchanged) but not on the counter, which the second call decrements
again whenever it is still positive; the clamp guarantees the counter
never becomes negative over any sequence of acquire/release calls
starting from the initial state. -/
theorem C8_release_amended :
    (∀ (s : LockState) (f : String),
        f ∉ (releaseExcelLock f s).locks ∧
        (releaseExcelLock f s).locks = mapDelete s.locks f ∧
        (releaseExcelLock f s).active = relCounter s.active) ∧
    (∀ (s : LockState) (f : String),
        (releaseExcelLock f (releaseExcelLock f s)).locks =
          (releaseExcelLock f s).locks) ∧
    (∀ ops : List LockOp, 0 ≤ (applyOps ops initialLockState).active) := by
  refine ⟨fun s f => ⟨?_, rfl, rfl⟩, fun s f => mapDelete_idem s.locks f,
    fun ops => applyOps_active_nonneg ops initialLockState (le_refl 0)⟩
  simp [releaseExcelLock, mapDelete]

/- ------------------------------------------------------------------
   Cooperative scheduling model of concurrent Excel operations.

   `acquireExcelLock` (lines 39-61) runs on Node's single-threaded
   event loop; control is handed over only at `await` points (the two
   polling sleeps, workbook load/save).  Consequently each of the
   following is one atomic step of an in-flight operation:

   * `capPassFast`: the operation observes `activeExcelOperations < 4`,
     falls out of the cap loop, observes the file lock free, and runs
     `activeExcelOperations++; excelLocks.set(filename, ...)` — all
     synchronous, no await in between.
   * `capPassPark`: it observes the cap free but the file lock held and
     suspends in the per-file polling loop.  NOTE: on later wake-ups it
     re-checks only `excelLocks.get(filename)`, never the cap again.
   * `fileAcquire`: a parked operation wakes, observes the file lock
     free, and acquires — without re-checking the global cap.
   * `releaseStep`: the holder calls `releaseExcelLock` (success path
     or catch path of the handlers).
   * `leakReturn`: the holder returns without releasing (the
     structural-error early returns of `remplir-excel`, lines 846-855).
   * `timeoutCap` / `timeoutFile`: a waiter's 30 s timeout elapses and
     `acquireExcelLock` throws.  The throw lands in the handler's catch
     block, and since `outputFileName` was assigned BEFORE the acquire
     (lines 826/837 and 1252/1256), the catch runs
     `releaseExcelLock(outputFileName)` (lines 975-977 and 1537-1540)
     even though this request never acquired: it deletes the CURRENT
     holder's lock entry for that filename (if any) and decrements a
     counter this request never incremented.
   ------------------------------------------------------------------ -/

/-- Where an operation stands relative to the concurrency gate. -/
inductive OpPhase where
  | waitCap
  | waitFile
  | holding
  | done
deriving DecidableEq, Repr

/-- One Excel operation: its target output filename and its phase. -/
structure ExOp where
  file : String
  phase : OpPhase
deriving DecidableEq, Repr

/-- Whole-system state: the shared lock state plus every operation. -/
structure SysState where
  lock : LockState
  ops : List ExOp
deriving DecidableEq, Repr

/-- One atomic step of the cooperative execution (see block comment). -/
inductive SysStep : SysState → SysState → Prop where
  | capPassFast (s : SysState) (i : ℕ) (hi : i < s.ops.length)
      (hph : (s.ops[i]).phase = OpPhase.waitCap)
      (hcap : s.lock.active < 4)
      (hfree : (s.ops[i]).file ∉ s.lock.locks) :
      SysStep s ⟨acquireAction (s.ops[i]).file s.lock,
                 s.ops.set i ⟨(s.ops[i]).file, OpPhase.holding⟩⟩
  | capPassPark (s : SysState) (i : ℕ) (hi : i < s.ops.length)
      (hph : (s.ops[i]).phase = OpPhase.waitCap)
      (hcap : s.lock.active < 4)
      (hheld : (s.ops[i]).file ∈ s.lock.locks) :
      SysStep s ⟨s.lock, s.ops.set i ⟨(s.ops[i]).file, OpPhase.waitFile⟩⟩
  | fileAcquire (s : SysState) (i : ℕ) (hi : i < s.ops.length)
      (hph : (s.ops[i]).phase = OpPhase.waitFile)
      (hfree : (s.ops[i]).file ∉ s.lock.locks) :
      SysStep s ⟨acquireAction (s.ops[i]).file s.lock,
                 s.ops.set i ⟨(s.ops[i]).file, OpPhase.holding⟩⟩
  | releaseStep (s : SysState) (i : ℕ) (hi : i < s.ops.length)
      (hph : (s.ops[i]).phase = OpPhase.holding) :
      SysStep s ⟨releaseExcelLock (s.ops[i]).file s.lock,
                 s.ops.set i ⟨(s.ops[i]).file, OpPhase.done⟩⟩
  | leakReturn (s : SysState) (i : ℕ) (hi : i < s.ops.length)
      (hph : (s.ops[i]).phase = OpPhase.holding) :
      SysStep s ⟨s.lock, s.ops.set i ⟨(s.ops[i]).file, OpPhase.done⟩⟩
  | timeoutCap (s : SysState) (i : ℕ) (hi : i < s.ops.length)
      (hph : (s.ops[i]).phase = OpPhase.waitCap) :
      SysStep s ⟨releaseExcelLock (s.ops[i]).file s.lock,
                 s.ops.set i ⟨(s.ops[i]).file, OpPhase.done⟩⟩
  | timeoutFile (s : SysState) (i : ℕ) (hi : i < s.ops.length)
      (hph : (s.ops[i]).phase = OpPhase.waitFile) :
      SysStep s ⟨releaseExcelLock (s.ops[i]).file s.lock,
                 s.ops.set i ⟨(s.ops[i]).file, OpPhase.done⟩⟩

/-- Reachability under cooperative interleaving. -/
def SysReach : SysState → SysState → Prop := Relation.ReflTransGen SysStep

/-- Initial system: a fresh operation per requested filename, lock
state as at process start. -/
def initSys (files : List String) : SysState :=
  ⟨initialLockState, files.map fun f => ⟨f, OpPhase.waitCap⟩⟩

/-- The reachable state exhibiting the mutual-exclusion violation of
C2: operations 0 and 2 (indices into `ops`) simultaneously hold the
lock for the same filename "f". -/
def c2ViolState : SysState :=
  ⟨⟨["f"], 1⟩, [⟨"f", OpPhase.holding⟩, ⟨"f", OpPhase.done⟩, ⟨"f", OpPhase.holding⟩]⟩

/-- C2 (code bug): mutual exclusion is violated by the timeout
catch-path release.  Three requests for the same filename "f": A
(index 0) acquires and is mid load-mutate-save; B (index 1) parks in
the per-file wait loop and times out — `acquireExcelLock` throws into
the handler's catch, which calls `releaseExcelLock("f")` although B
never acquired, deleting A's lock entry and decrementing the counter;
C (index 2) then finds `excelLocks` empty, acquires, and loads and
mutates the same workbook concurrently with A.  The final state has
two distinct in-flight operations holding the lock for "f". -/
theorem C2_mutex_violation :
    SysReach (initSys ["f", "f", "f"]) c2ViolState ∧
    (c2ViolState.ops.get ⟨0, by decide⟩).phase = OpPhase.holding ∧
    (c2ViolState.ops.get ⟨2, by decide⟩).phase = OpPhase.holding ∧
    (c2ViolState.ops.get ⟨0, by decide⟩).file =
      (c2ViolState.ops.get ⟨2, by decide⟩).file ∧
    (0 : ℕ) ≠ 2 := by
  refine ⟨?_, by decide, by decide, by decide, by decide⟩
  refine Relation.ReflTransGen.head
    (SysStep.capPassFast _ 0 (by decide) (by decide) (by decide) (by decide)) ?_
  refine Relation.ReflTransGen.head
    (SysStep.capPassPark _ 1 (by decide) (by decide) (by decide) (by decide)) ?_
  refine Relation.ReflTransGen.head
    (SysStep.timeoutFile _ 1 (by decide) (by decide)) ?_
  refine Relation.ReflTransGen.head
    (SysStep.capPassFast _ 2 (by decide) (by decide) (by decide) (by decide)) ?_
  exact Relation.ReflTransGen.refl

/- ------------------------------------------------------------------
   C3: the global cap.
   ------------------------------------------------------------------ -/

/-- The cooperative steps in which every acquisition takes the fast
path (the target file is free at the instant the cap check passes):
`SysStep` without the `fileAcquire` transition. -/
inductive FastStep : SysState → SysState → Prop where
  | capPassFast (s : SysState) (i : ℕ) (hi : i < s.ops.length)
      (hph : (s.ops[i]).phase = OpPhase.waitCap)
      (hcap : s.lock.active < 4)
      (hfree : (s.ops[i]).file ∉ s.lock.locks) :
      FastStep s ⟨acquireAction (s.ops[i]).file s.lock,
                  s.ops.set i ⟨(s.ops[i]).file, OpPhase.holding⟩⟩
  | capPassPark (s : SysState) (i : ℕ) (hi : i < s.ops.length)
      (hph : (s.ops[i]).phase = OpPhase.waitCap)
      (hcap : s.lock.active < 4)
      (hheld : (s.ops[i]).file ∈ s.lock.locks) :
      FastStep s ⟨s.lock, s.ops.set i ⟨(s.ops[i]).file, OpPhase.waitFile⟩⟩
  | releaseStep (s : SysState) (i : ℕ) (hi : i < s.ops.length)
      (hph : (s.ops[i]).phase = OpPhase.holding) :
      FastStep s ⟨releaseExcelLock (s.ops[i]).file s.lock,
                  s.ops.set i ⟨(s.ops[i]).file, OpPhase.done⟩⟩
  | leakReturn (s : SysState) (i : ℕ) (hi : i < s.ops.length)
      (hph : (s.ops[i]).phase = OpPhase.holding) :
      FastStep s ⟨s.lock, s.ops.set i ⟨(s.ops[i]).file, OpPhase.done⟩⟩
  | timeoutCap (s : SysState) (i : ℕ) (hi : i < s.ops.length)
      (hph : (s.ops[i]).phase = OpPhase.waitCap) :
      FastStep s ⟨releaseExcelLock (s.ops[i]).file s.lock,
                  s.ops.set i ⟨(s.ops[i]).file, OpPhase.done⟩⟩
  | timeoutFile (s : SysState) (i : ℕ) (hi : i < s.ops.length)
      (hph : (s.ops[i]).phase = OpPhase.waitFile) :
      FastStep s ⟨releaseExcelLock (s.ops[i]).file s.lock,
                  s.ops.set i ⟨(s.ops[i]).file, OpPhase.done⟩⟩

/-- Reachability along fast-path-only executions. -/
def FastReach : SysState → SysState → Prop := Relation.ReflTransGen FastStep

lemma fastStep_active_bound {s t : SysState} (hst : FastStep s t)
    (h0 : 0 ≤ s.lock.active) (h4 : s.lock.active ≤ 4) :
    0 ≤ t.lock.active ∧ t.lock.active ≤ 4 := by
  cases hst with
  | capPassFast i hi hph hcap hfree =>
      refine ⟨?_, ?_⟩ <;> simp [acquireAction] <;> omega
  | capPassPark i hi hph hcap hheld => exact ⟨h0, h4⟩
  | releaseStep i hi hph => exact ⟨relCounter_nonneg _, relCounter_le _ h4⟩
  | leakReturn i hi hph => exact ⟨h0, h4⟩
  | timeoutCap i hi hph => exact ⟨relCounter_nonneg _, relCounter_le _ h4⟩
  | timeoutFile i hi hph => exact ⟨relCounter_nonneg _, relCounter_le _ h4⟩

lemma fastReach_active_bound {s t : SysState} (h : FastReach s t)
    (h0 : 0 ≤ s.lock.active) (h4 : s.lock.active ≤ 4) :
    0 ≤ t.lock.active ∧ t.lock.active ≤ 4 := by
  induction h with
  | refl => exact ⟨h0, h4⟩
  | tail _ hstep ih => exact fastStep_active_bound hstep ih.1 ih.2

/-- C3 (counterexample): `activeExcelOperations` CAN exceed 4.  Six
operations — two on file "f", four on distinct files — produce a
reachable state with counter 5: the second "f" operation passes the
global-cap check while the counter is 1, parks in the per-file wait
loop, and later acquires without re-checking the cap although four
other operations are by then in flight. -/
theorem C3_counterexample :
    SysReach (initSys ["f", "f", "g1", "g2", "g3", "g4"])
      ⟨⟨["f", "g4", "g3", "g2", "g1"], 5⟩,
       [⟨"f", OpPhase.done⟩, ⟨"f", OpPhase.holding⟩, ⟨"g1", OpPhase.holding⟩,
        ⟨"g2", OpPhase.holding⟩, ⟨"g3", OpPhase.holding⟩,
        ⟨"g4", OpPhase.holding⟩]⟩ ∧
    ¬ ((⟨⟨["f", "g4", "g3", "g2", "g1"], 5⟩,
         [⟨"f", OpPhase.done⟩, ⟨"f", OpPhase.holding⟩, ⟨"g1", OpPhase.holding⟩,
          ⟨"g2", OpPhase.holding⟩, ⟨"g3", OpPhase.holding⟩,
          ⟨"g4", OpPhase.holding⟩]⟩ : SysState).lock.active ≤ 4) := by
  constructor
  · refine Relation.ReflTransGen.head
      (SysStep.capPassFast _ 0 (by decide) (by decide) (by decide) (by decide)) ?_
    refine Relation.ReflTransGen.head
      (SysStep.capPassPark _ 1 (by decide) (by decide) (by decide) (by decide)) ?_
    refine Relation.ReflTransGen.head
      (SysStep.capPassFast _ 2 (by decide) (by decide) (by decide) (by decide)) ?_
    refine Relation.ReflTransGen.head
      (SysStep.capPassFast _ 3 (by decide) (by decide) (by decide) (by decide)) ?_
    refine Relation.ReflTransGen.head
      (SysStep.capPassFast _ 4 (by decide) (by decide) (by decide) (by decide)) ?_
    refine Relation.ReflTransGen.head
      (SysStep.releaseStep _ 0 (by decide) (by decide)) ?_
    refine Relation.ReflTransGen.head
      (SysStep.capPassFast _ 5 (by decide) (by decide) (by decide) (by decide)) ?_
    refine Relation.ReflTransGen.head
      (SysStep.fileAcquire _ 1 (by decide) (by decide) (by decide)) ?_
    exact Relation.ReflTransGen.refl
  · decide

/-- C3 (amended): the cap check guards only the entry of the per-file
wait.  (a) Along executions in which every acquisition takes the fast
path, `activeExcelOperations` never exceeds 4.  (b) A freshly arriving
operation (still at the global-cap check) cannot advance while 4 or
more operations are in flight: any step leaves it waiting at the cap
or times it out.  Operations parked in the per-file wait loop, however,
acquire without re-checking the cap, so the counter can exceed 4 (see
the counterexample). -/
theorem C3_cap_amended :
    (∀ (files : List String) (s : SysState),
        FastReach (initSys files) s → s.lock.active ≤ 4) ∧
    (∀ (s t : SysState) (i : ℕ) (hi : i < s.ops.length),
        (s.ops[i]).phase = OpPhase.waitCap → 4 ≤ s.lock.active →
        SysStep s t → ∀ (hi2 : i < t.ops.length),
        (t.ops[i]).phase = OpPhase.waitCap ∨ (t.ops[i]).phase = OpPhase.done) := by
  constructor
  · intro files s h
    exact (fastReach_active_bound h (le_refl 0) (by norm_num [initSys, initialLockState])).2
  · intro s t i hi hph h4 hst hi2
    cases hst with
    | capPassFast k hk hph2 hcap hfree => omega
    | capPassPark k hk hph2 hcap hheld => omega
    | fileAcquire k hk hph2 hfree =>
        by_cases hki : k = i
        · subst hki
          exact absurd (hph.symm.trans hph2) (by decide)
        · rw [List.getElem_set_ne hki]
          exact Or.inl hph
    | releaseStep k hk hph2 =>
        by_cases hki : k = i
        · subst hki
          exact absurd (hph.symm.trans hph2) (by decide)
        · rw [List.getElem_set_ne hki]
          exact Or.inl hph
    | leakReturn k hk hph2 =>
        by_cases hki : k = i
        · subst hki
          exact absurd (hph.symm.trans hph2) (by decide)
        · rw [List.getElem_set_ne hki]
          exact Or.inl hph
    | timeoutCap k hk hph2 =>
        by_cases hki : k = i
        · subst hki
          rw [List.getElem_set_self]
          exact Or.inr rfl
        · rw [List.getElem_set_ne hki]
          exact Or.inl hph
    | timeoutFile k hk hph2 =>
        by_cases hki : k = i
        · subst hki
          exact absurd (hph.symm.trans hph2) (by decide)
        · rw [List.getElem_set_ne hki]
          exact Or.inl hph

/-- C3 amended witness: a single fast acquisition on file "a" reaches a
state whose counter the amended bound caps at 4. -/
theorem C3_cap_amended_witness :
    (⟨⟨["a"], 1⟩, [⟨"a", OpPhase.holding⟩]⟩ : SysState).lock.active ≤ 4 := by
  refine C3_cap_amended.1 ["a"] _ ?_
  refine Relation.ReflTransGen.head
    (FastStep.capPassFast _ 0 (by decide) (by decide) (by decide) (by decide)) ?_
  exact Relation.ReflTransGen.refl

/- ------------------------------------------------------------------
   Cell-fill engine (`remplir-excel` handler body, lines 859-952).
   ------------------------------------------------------------------ -/

/-- One criterion of the mapping: its id and spreadsheet row. -/
structure Critere where
  id : String
  ligne : ℕ
deriving DecidableEq, Repr

/-- One competency: its ordered criteria (`competence.criteres`). -/
structure Competence where
  criteres : List Critere
deriving DecidableEq, Repr

/-- `mapping.niveaux.niveau_N.colonne`: the column letter per level. -/
structure Niveaux where
  niveau_1 : String
  niveau_2 : String
  niveau_3 : String
  niveau_4 : String
deriving DecidableEq, Repr

/-- A JS value as `parseFloat` sees it: a number, `null`, or anything
`parseFloat` turns into `NaN` (non-numeric string, object, ...). -/
inductive JSNum where
  | jnum (q : ℚ)
  | jnull
  | jnan
deriving DecidableEq, Repr

/-- The per-phase evaluation record (`eleve.evaluations[semestre]`).
`lookup id` is `evalData[critere.id]`: `none` = no entry, `some none` =
`{niveau: null}`, `some (some n)` = an integer level (the stored data
is integer-valued; `parseInt` is the identity on it).  `bonus` /
`note_finale` are `none` when the key is absent (`undefined`). -/
structure EvalData where
  lookup : String → Option (Option Int)
  commentaireGeneral : Option String
  bonus : Option JSNum
  note_finale : Option JSNum

/-- Everything of the mapping the fill pass for one phase reads. -/
structure FillConfig where
  competences : List Competence
  niveaux : Niveaux
  commentCell : Option String
  bonusCell : Option String
  noteFinaleCell : Option String

/-- Source `const colonnes = ['C', 'D', 'E', 'F'];` (line 860). -/
def colonnes : List String := ["C", "D", "E", "F"]

/-- The clear test of lines 869-871: a cell holding exactly 'x' or 'X'
is reset to null, anything else is left alone. -/
def clearCell (v : CellVal) : CellVal :=
  if v = CellVal.str "x" ∨ v = CellVal.str "X" then CellVal.empty else v

/-- Addresses scanned by the clear pass: the four level columns at
every criterion row of the phase's mapping (lines 861-877). -/
def clearAddrs (cfg : FillConfig) : List String :=
  cfg.competences.flatMap fun comp =>
    comp.criteres.flatMap fun cr =>
      colonnes.map fun col => col ++ toString cr.ligne

/-- The clear pass itself. -/
def clearPass (addrs : List String) (s : Sheet) : Sheet :=
  addrs.foldl (fun sh a => sh.update a (clearCell (sh a))) s

/-- The `switch (niveau)` of lines 891-907: levels 0 and 1 collapse to
`niveau_1.colonne`, 2-4 map to their own columns, anything else hits
`default: continue`. -/
def colonneForNiveau (nv : Niveaux) (n : Int) : Option String :=
  if n = 0 ∨ n = 1 then some nv.niveau_1
  else if n = 2 then some nv.niveau_2
  else if n = 3 then some nv.niveau_3
  else if n = 4 then some nv.niveau_4
  else none

/-- The cell write (if any) the mark pass performs for one criterion
(lines 883-916). -/
def markAssignForCritere (nv : Niveaux) (data : String → Option (Option Int))
    (cr : Critere) : Option (String × CellVal) :=
  match data cr.id with
  | none => none
  | some none => none
  | some (some n) =>
      match colonneForNiveau nv n with
      | none => none
      | some col => some (col ++ toString cr.ligne, CellVal.str "x")

/-- All mark writes of the pass, in source iteration order. -/
def markAssigns (cfg : FillConfig) (data : String → Option (Option Int)) :
    List (String × CellVal) :=
  cfg.competences.flatMap fun comp =>
    comp.criteres.filterMap fun cr => markAssignForCritere cfg.niveaux data cr

/-- Global-comment write (lines 920-927); JS truthiness skips the empty
string. -/
def commentAssign (cfg : FillConfig) (ed : EvalData) : Option (String × CellVal) :=
  match cfg.commentCell, ed.commentaireGeneral with
  | some addr, some text =>
      if text = "" then none else some (addr, CellVal.str text)
  | _, _ => none

/-- JS `parseFloat(v) || 0` (line 937). -/
def parseFloatOr0 : JSNum → ℚ
  | JSNum.jnum q => q
  | JSNum.jnull => 0
  | JSNum.jnan => 0

/-- JS `parseFloat(v)` as a cell value (line 947): `NaN` for non-numbers. -/
def parseFloatVal : JSNum → CellVal
  | JSNum.jnum q => CellVal.num q
  | JSNum.jnull => CellVal.nan
  | JSNum.jnan => CellVal.nan

/-- Bonus write (lines 934-941): performed whenever the cell is
configured and the `bonus` key is present (including `null`), with
non-numeric values coerced to 0 by `|| 0`. -/
def bonusAssign (cfg : FillConfig) (ed : EvalData) : Option (String × CellVal) :=
  match cfg.bonusCell, ed.bonus with
  | some addr, some v => some (addr, CellVal.num (parseFloatOr0 v))
  | _, _ => none

/-- Final-score write (lines 944-951): skipped when `note_finale` is
absent or `null`; no `|| 0` coercion here. -/
def noteFinaleAssign (cfg : FillConfig) (ed : EvalData) : Option (String × CellVal) :=
  match cfg.noteFinaleCell, ed.note_finale with
  | some _, some JSNum.jnull => none
  | some addr, some v => some (addr, parseFloatVal v)
  | _, _ => none

/-- Every write of the fill pass after the clear pass, in source
order.  None of these writes reads the sheet, so the pass is the clear
pass followed by this fixed assignment list. -/
def fillAssigns (cfg : FillConfig) (ed : EvalData) : List (String × CellVal) :=
  markAssigns cfg ed.lookup ++ (commentAssign cfg ed).toList ++
    (bonusAssign cfg ed).toList ++ (noteFinaleAssign cfg ed).toList

/-- Sequentially perform a list of cell writes. -/
def applyAssigns (s : Sheet) (L : List (String × CellVal)) : Sheet :=
  L.foldl (fun sh p => sh.update p.1 p.2) s

/-- The whole cell-fill pass of the `remplir-excel` handler. -/
def fillPass (cfg : FillConfig) (ed : EvalData) (s : Sheet) : Sheet :=
  applyAssigns (clearPass (clearAddrs cfg) s) (fillAssigns cfg ed)

/-- The last value written to address `a` by the list, if any. -/
def lastVal (L : List (String × CellVal)) (a : String) : Option CellVal :=
  match L with
  | [] => none
  | p :: rest =>
      match lastVal rest a with
      | some v => some v
      | none => if p.1 = a then some p.2 else none

lemma applyAssigns_apply (L : List (String × CellVal)) (s : Sheet) (a : String) :
    applyAssigns s L a = match lastVal L a with
      | some v => v
      | none => s a := by
  induction L generalizing s with
  | nil => rfl
  | cons p rest ih =>
      show applyAssigns (s.update p.1 p.2) rest a = _
      rw [ih]
      cases hrest : lastVal rest a with
      | some v => simp [lastVal, hrest]
      | none =>
          simp only [lastVal, hrest]
          by_cases hp : p.1 = a
          · subst hp
            simp [Sheet.update]
          · simp [Sheet.update, hp]
            intro h
            exact absurd h.symm hp

lemma clearCell_idem (v : CellVal) : clearCell (clearCell v) = clearCell v := by
  unfold clearCell
  by_cases h : v = CellVal.str "x" ∨ v = CellVal.str "X"
  · rw [if_pos h]
    simp
  · rw [if_neg h, if_neg h]

lemma clearPass_apply (addrs : List String) (s : Sheet) (a : String) :
    clearPass addrs s a = if a ∈ addrs then clearCell (s a) else s a := by
  induction addrs generalizing s with
  | nil => simp [clearPass]
  | cons a0 rest ih =>
      show clearPass rest (s.update a0 (clearCell (s a0))) a = _
      rw [ih]
      by_cases ha : a ∈ rest <;> by_cases h0 : a = a0
      · subst h0
        simp [Sheet.update, ha, clearCell_idem]
      · simp [Sheet.update, ha, h0]
      · subst h0
        simp [Sheet.update, ha]
      · simp [Sheet.update, ha, h0, List.mem_cons]

/-- C5: the cell-fill engine is idempotent.  For every mapping, record
and sheet, running `fillPass` twice with the same record leaves exactly
the cell contents one run produces: the clear pass scans the four level
columns at every criterion row and erases any existing 'x' or 'X' mark
before the (sheet-independent) writes are re-applied. -/
theorem C5_fill_idempotent :
    (∀ (cfg : FillConfig) (ed : EvalData) (s : Sheet),
        fillPass cfg ed (fillPass cfg ed s) = fillPass cfg ed s) ∧
    clearCell (CellVal.str "x") = CellVal.empty ∧
    clearCell (CellVal.str "X") = CellVal.empty ∧
    (∀ (addrs : List String) (s : Sheet) (a : String), a ∈ addrs →
        clearPass addrs s a = clearCell (s a)) := by
  refine ⟨?_, by decide, by decide, fun addrs s a ha => by rw [clearPass_apply, if_pos ha]⟩
  intro cfg ed s
  funext a
  show applyAssigns (clearPass (clearAddrs cfg) (fillPass cfg ed s)) (fillAssigns cfg ed) a
      = fillPass cfg ed s a
  rw [applyAssigns_apply]
  cases hL : lastVal (fillAssigns cfg ed) a with
  | some v =>
      show v = fillPass cfg ed s a
      unfold fillPass
      rw [applyAssigns_apply, hL]
  | none =>
      show clearPass (clearAddrs cfg) (fillPass cfg ed s) a = fillPass cfg ed s a
      rw [clearPass_apply]
      have hfill : fillPass cfg ed s a = clearPass (clearAddrs cfg) s a := by
        unfold fillPass
        rw [applyAssigns_apply, hL]
      by_cases hA : a ∈ clearAddrs cfg
      · rw [if_pos hA, hfill, clearPass_apply, if_pos hA]
        exact clearCell_idem (s a)
      · rw [if_neg hA]

/-- C6: the level-to-column mapping.  Levels 0 and 1 both resolve to
`niveaux.niveau_1.colonne`; levels 2, 3, 4 resolve to their own
columns; any other level is silently skipped — `markAssignForCritere`
produces no write at all for that criterion. -/
theorem C6_niveau_mapping :
    (∀ nv : Niveaux,
        colonneForNiveau nv 0 = some nv.niveau_1 ∧
        colonneForNiveau nv 1 = some nv.niveau_1 ∧
        colonneForNiveau nv 2 = some nv.niveau_2 ∧
        colonneForNiveau nv 3 = some nv.niveau_3 ∧
        colonneForNiveau nv 4 = some nv.niveau_4) ∧
    (∀ (nv : Niveaux) (n : Int),
        ¬(n = 0 ∨ n = 1 ∨ n = 2 ∨ n = 3 ∨ n = 4) → colonneForNiveau nv n = none) ∧
    (∀ (nv : Niveaux) (data : String → Option (Option Int)) (cr : Critere) (n : Int),
        data cr.id = some (some n) → ¬(n = 0 ∨ n = 1 ∨ n = 2 ∨ n = 3 ∨ n = 4) →
        markAssignForCritere nv data cr = none) := by
  refine ⟨fun nv => ⟨rfl, rfl, rfl, rfl, rfl⟩, ?_, ?_⟩
  · intro nv n hn
    unfold colonneForNiveau
    rw [if_neg (by tauto), if_neg (by tauto), if_neg (by tauto), if_neg (by tauto)]
  · intro nv data cr n hdata hn
    have hcol : colonneForNiveau nv n = none := by
      unfold colonneForNiveau
      rw [if_neg (by tauto), if_neg (by tauto), if_neg (by tauto), if_neg (by tauto)]
    simp only [markAssignForCritere, hdata, hcol]

/-- C6 witness: level 7 at a concrete mapping and record is skipped. -/
theorem C6_niveau_mapping_witness :
    colonneForNiveau ⟨"C", "D", "E", "F"⟩ 7 = none ∧
    markAssignForCritere ⟨"C", "D", "E", "F"⟩ (fun _ => some (some 7)) ⟨"c1", 21⟩ = none := by
  exact ⟨C6_niveau_mapping.2.1 ⟨"C", "D", "E", "F"⟩ 7 (by decide),
    C6_niveau_mapping.2.2 ⟨"C", "D", "E", "F"⟩ (fun _ => some (some 7)) ⟨"c1", 21⟩ 7 rfl
      (by decide)⟩

/-- C7 (counterexample): a bonus that is MISSING from the record (key
absent, i.e. `undefined`) is not coerced to 0 and written — the guard
`evalData.bonus !== undefined` skips the write entirely.  With a bonus
cell configured at "B64" and a record with no bonus key, the fill pass
leaves "B64" empty instead of writing the number 0. -/
theorem C7_counterexample :
    fillPass ⟨[], ⟨"C", "D", "E", "F"⟩, none, some "B64", none⟩
        ⟨fun _ => none, none, none, none⟩ (fun _ => CellVal.empty) "B64" =
      CellVal.empty ∧
    bonusAssign ⟨[], ⟨"C", "D", "E", "F"⟩, none, some "B64", none⟩
        ⟨fun _ => none, none, none, none⟩ = none ∧
    CellVal.empty ≠ CellVal.num 0 := by
  exact ⟨rfl, rfl, by decide⟩

/-- C7 (amended): when the auxiliary cells are configured, a bonus key
PRESENT in the record is written as a number, with `null` or a
non-numeric value coercing to 0; a bonus absent from the record is
skipped (no write).  A missing or `null` final score is skipped
entirely rather than written as 0. -/
theorem C7_aux_fields_amended (cfg : FillConfig) (ed : EvalData) (addr : String) :
    (cfg.bonusCell = some addr → ed.bonus = none → bonusAssign cfg ed = none) ∧
    (∀ q, cfg.bonusCell = some addr → ed.bonus = some (JSNum.jnum q) →
        bonusAssign cfg ed = some (addr, CellVal.num q)) ∧
    (cfg.bonusCell = some addr → ed.bonus = some JSNum.jnull →
        bonusAssign cfg ed = some (addr, CellVal.num 0)) ∧
    (cfg.bonusCell = some addr → ed.bonus = some JSNum.jnan →
        bonusAssign cfg ed = some (addr, CellVal.num 0)) ∧
    (ed.note_finale = none → noteFinaleAssign cfg ed = none) ∧
    (ed.note_finale = some JSNum.jnull → noteFinaleAssign cfg ed = none) ∧
    (∀ q, cfg.noteFinaleCell = some addr → ed.note_finale = some (JSNum.jnum q) →
        noteFinaleAssign cfg ed = some (addr, CellVal.num q)) := by
  refine ⟨?_, ?_, ?_, ?_, ?_, ?_, ?_⟩
  · intro hc hb
    simp [bonusAssign, hc, hb]
  · intro q hc hb
    simp [bonusAssign, hc, hb, parseFloatOr0]
  · intro hc hb
    simp [bonusAssign, hc, hb, parseFloatOr0]
  · intro hc hb
    simp [bonusAssign, hc, hb, parseFloatOr0]
  · intro hn
    unfold noteFinaleAssign
    rw [hn]
    cases cfg.noteFinaleCell <;> rfl
  · intro hn
    unfold noteFinaleAssign
    rw [hn]
    cases cfg.noteFinaleCell <;> rfl
  · intro q hc hn
    unfold noteFinaleAssign
    rw [hn, hc]
    rfl

/-- C7 witness: the amended statement instantiated at a concrete
configuration and record (bonus `null` → 0 written; final score absent
→ skipped). -/
theorem C7_aux_fields_amended_witness :
    bonusAssign ⟨[], ⟨"C", "D", "E", "F"⟩, none, some "B64", some "F64"⟩
        ⟨fun _ => none, none, some JSNum.jnull, none⟩ =
      some ("B64", CellVal.num 0) ∧
    noteFinaleAssign ⟨[], ⟨"C", "D", "E", "F"⟩, none, some "B64", some "F64"⟩
        ⟨fun _ => none, none, some JSNum.jnull, none⟩ = none := by
  exact ⟨(C7_aux_fields_amended ⟨[], ⟨"C", "D", "E", "F"⟩, none, some "B64", some "F64"⟩
      ⟨fun _ => none, none, some JSNum.jnull, none⟩ "B64").2.2.1 rfl rfl,
    (C7_aux_fields_amended ⟨[], ⟨"C", "D", "E", "F"⟩, none, some "B64", some "F64"⟩
      ⟨fun _ => none, none, some JSNum.jnull, none⟩ "B64").2.2.2.2.1 rfl⟩

/- ------------------------------------------------------------------
   C1: the remplir-excel / generer-excel-complet handler flows around
   the lock (lines 808-989 and 1235-1552).
   ------------------------------------------------------------------ -/

/-- The environment a `remplir-excel` invocation runs against: which
guards pass and which awaited I/O steps throw. -/
structure RemplirEnv where
  eleveFound : Bool
  hasEvalData : Bool
  fileExists : Bool
  loadFails : Bool
  sheetFound : Bool
  hasMappingEval : Bool
  saveFails : Bool

/-- A handler's HTTP outcome. -/
inductive HandlerResult where
  | ok
  | err (code : ℕ)
deriving DecidableEq, Repr

/-- Control-flow skeleton of `POST /api/eleves/:id/remplir-excel`
(lines 808-989) with respect to the lock: the three guards before the
acquire return with the lock untouched; after the acquire, a throw
during load or save lands in the catch block which releases; the two
structural-error returns (`if (!sheet)` line 846, missing
`mapping.evaluations[semestre]` line 853) return WITHOUT calling
`releaseExcelLock`. -/
def remplirExcelRoute (env : RemplirEnv) (fn : String) (ls : LockState) :
    HandlerResult × LockState :=
  if env.eleveFound = false then (HandlerResult.err 404, ls)
  else if env.hasEvalData = false then (HandlerResult.err 400, ls)
  else if env.fileExists = false then (HandlerResult.err 404, ls)
  else
    let ls1 := acquireAction fn ls
    if env.loadFails then (HandlerResult.err 500, releaseExcelLock fn ls1)
    else if env.sheetFound = false then (HandlerResult.err 400, ls1)
    else if env.hasMappingEval = false then (HandlerResult.err 400, ls1)
    else if env.saveFails then (HandlerResult.err 500, releaseExcelLock fn ls1)
    else (HandlerResult.ok, releaseExcelLock fn ls1)

/-- Environment of a `generer-excel-complet` invocation; its per-sheet
and per-semester failures are all `continue`s or caught per-cell, so
only the load and the save can throw after the acquire. -/
structure GenererEnv where
  eleveFound : Bool
  loadFails : Bool
  saveFails : Bool

/-- Control-flow skeleton of `POST /api/eleves/:id/generer-excel-complet`
(lines 1235-1552) with respect to the lock: no structural early return
exists between acquire and release; every completion path after the
acquire releases. -/
def genererExcelCompletRoute (env : GenererEnv) (fn : String) (ls : LockState) :
    HandlerResult × LockState :=
  if env.eleveFound = false then (HandlerResult.err 404, ls)
  else
    let ls1 := acquireAction fn ls
    if env.loadFails then (HandlerResult.err 500, releaseExcelLock fn ls1)
    else if env.saveFails then (HandlerResult.err 500, releaseExcelLock fn ls1)
    else (HandlerResult.ok, releaseExcelLock fn ls1)

/-- C1 (code bug): the missing-sheet and missing-phase-mapping returns
of `remplir-excel` leak the lock.  Starting from the idle lock state,
an invocation whose guards all pass but whose sheet is absent (resp.
whose phase mapping is absent) returns HTTP 400 with the filename's
lock entry still present and the in-flight counter still incremented —
so every later request for the same filename waits out the 30 s
timeout.  By contrast, the success, load-failure and save-failure paths
do release, as does every path of `generer-excel-complet`. -/
theorem C1_lock_leak :
    remplirExcelRoute ⟨true, true, true, false, false, true, false⟩
        "Dupont_Jean_Evaluation.xlsx" initialLockState =
      (HandlerResult.err 400, ⟨["Dupont_Jean_Evaluation.xlsx"], 1⟩) ∧
    remplirExcelRoute ⟨true, true, true, false, true, false, false⟩
        "Dupont_Jean_Evaluation.xlsx" initialLockState =
      (HandlerResult.err 400, ⟨["Dupont_Jean_Evaluation.xlsx"], 1⟩) ∧
    "Dupont_Jean_Evaluation.xlsx" ∈
      (remplirExcelRoute ⟨true, true, true, false, false, true, false⟩
        "Dupont_Jean_Evaluation.xlsx" initialLockState).2.locks ∧
    (remplirExcelRoute ⟨true, true, true, false, true, true, false⟩
        "Dupont_Jean_Evaluation.xlsx" initialLockState).2 = initialLockState ∧
    (remplirExcelRoute ⟨true, true, true, true, false, false, false⟩
        "Dupont_Jean_Evaluation.xlsx" initialLockState).2 = initialLockState ∧
    (remplirExcelRoute ⟨true, true, true, false, true, true, true⟩
        "Dupont_Jean_Evaluation.xlsx" initialLockState).2 = initialLockState ∧
    (genererExcelCompletRoute ⟨true, false, false⟩
        "Dupont_Jean_Evaluation.xlsx" initialLockState).2 = initialLockState ∧
    (genererExcelCompletRoute ⟨true, true, false⟩
        "Dupont_Jean_Evaluation.xlsx" initialLockState).2 = initialLockState ∧
    (genererExcelCompletRoute ⟨true, false, true⟩
        "Dupont_Jean_Evaluation.xlsx" initialLockState).2 = initialLockState := by
  refine ⟨by decide, by decide, by decide, by decide, by decide, by decide, by decide,
    by decide, by decide⟩

/- ------------------------------------------------------------------
   Formula-replication calculator (note-calculee handler fallback,
   lines 1062-1141).
   ------------------------------------------------------------------ -/

/-- JS `cell.value() || 0` as used for weight, poids and bonus cells: an
empty (`undefined`) cell and `NaN` are falsy and give 0.  (String
cells give 0 here: the template stores weights and the bonus as
numbers, and a non-numeric string would in any case fail the `a > 0`
contribution guard.) -/
def valueOr0 : CellVal → ℚ
  | CellVal.num q => q
  | _ => 0

/-- Lines 1077-1081: the mark-to-value conversion.  Only the exact
lowercase string 'x' counts; the column position gives the value
(C→0, D→1, E→2, F→3), first match winning. -/
def rowValeur (c d e f : CellVal) : Option ℚ :=
  if c = CellVal.str "x" then some 0
  else if d = CellVal.str "x" then some 1
  else if e = CellVal.str "x" then some 2
  else if f = CellVal.str "x" then some 3
  else none

/-- Source `calculerMoyenneCompetence(lignes)` (lines 1065-1090): accumulate
`somme += valeur * a; count += a` over the rows whose mark exists and
whose weight `a = A<ligne> || 0` is positive, then return
`count > 0 ? somme / count : 0`. -/
def calcStep (s : Sheet) (p : ℚ × ℚ) (ligne : ℕ) : ℚ × ℚ :=
  let v := rowValeur (s ("C" ++ toString ligne)) (s ("D" ++ toString ligne))
    (s ("E" ++ toString ligne)) (s ("F" ++ toString ligne))
  let a := valueOr0 (s ("A" ++ toString ligne))
  match v with
  | some valeur => if 0 < a then (p.1 + valeur * a, p.2 + a) else p
  | none => p

def calculerMoyenneCompetence (s : Sheet) (lignes : List ℕ) : ℚ :=
  let p := lignes.foldl (calcStep s) ((0 : ℚ), (0 : ℚ))
  if 0 < p.2 then p.1 / p.2 else 0

/-- The fixed phase → row/weight-cell layout table (lines 1093-1118). -/
structure LignesConfig where
  c01 : List ℕ
  c03 : List ℕ
  c08 : Option (List ℕ)
  c10 : Option (List ℕ)
  poidsC01 : String
  poidsC03 : String
  poidsC08 : Option String
  poidsC10 : Option String
deriving DecidableEq, Repr

/-- Table `lignesConfig` per semestre; phases outside the five known keys
leave it undefined (the JS code then throws a TypeError that the
surrounding try/catch swallows). -/
def lignesConfig (semestre : String) : Option LignesConfig :=
  if semestre = "stage" then
    some ⟨[21, 22, 23, 24, 26], [33, 34, 35, 36, 38], some [45, 46, 47, 49],
      some [56, 57, 58, 59, 61], "A19", "A31", some "A43", some "A54"⟩
  else if semestre = "revue1" then
    some ⟨[20, 21, 22, 23, 25], [32, 33, 34, 35, 37], none, none,
      "A18", "A30", none, none⟩
  else if semestre = "revue2" ∨ semestre = "revue3" ∨ semestre = "soutenance" then
    some ⟨[20, 21, 22, 23, 25], [32, 33, 34, 35, 37], some [44, 45, 46, 47, 49],
      some [56, 57, 58, 59, 61], "A18", "A30", some "A42", some "A54"⟩
  else none

/-- JS `Math.round(x * 100) / 100` (line 1137): round half toward +∞. -/
def round2 (x : ℚ) : ℚ := ((⌊x * 100 + 1 / 2⌋ : ℤ) : ℚ) / 100

/-- Lines 1120-1137: the final score from a row layout. -/
def computeNote (s : Sheet) (cfg : LignesConfig) : ℚ :=
  let m01 := calculerMoyenneCompetence s cfg.c01
  let m03 := calculerMoyenneCompetence s cfg.c03
  let m08 := match cfg.c08 with
    | some l => calculerMoyenneCompetence s l
    | none => 0
  let m10 := match cfg.c10 with
    | some l => calculerMoyenneCompetence s l
    | none => 0
  let p01 := valueOr0 (s cfg.poidsC01)
  let p03 := valueOr0 (s cfg.poidsC03)
  let p08 := match cfg.poidsC08 with
    | some a => valueOr0 (s a)
    | none => 0
  let p10 := match cfg.poidsC10 with
    | some a => valueOr0 (s a)
    | none => 0
  let bonus := valueOr0 (s "C63")
  round2 ((m01 * p01 + m03 * p03 + m08 * p08 + m10 * p10) * 20 / 3 + bonus)

/-- The whole fallback: `none` when the semestre has no row layout
(the caught TypeError leaves `noteCalculee` undefined). -/
def noteFallback (s : Sheet) (semestre : String) : Option ℚ :=
  (lignesConfig semestre).map (computeNote s)

/- Spec-shaped restatement of the per-group average, for the
refinement proof of C4: a row contributes (marked-column position) ×
(row weight) when a mark exists and the weight is positive, and
contributes nothing otherwise; the average is weighted sum over weight
total, 0 when the weight total is 0. -/

/-- Whether a row contributes (claim's words): some level column
carries the mark and the row weight is positive. -/
def specContributes (s : Sheet) (r : ℕ) : Prop :=
  (rowValeur (s ("C" ++ toString r)) (s ("D" ++ toString r))
      (s ("E" ++ toString r)) (s ("F" ++ toString r))).isSome = true ∧
  0 < valueOr0 (s ("A" ++ toString r))

instance (s : Sheet) (r : ℕ) : Decidable (specContributes s r) := by
  unfold specContributes
  infer_instance

/-- The claim's weighted sum over a group's rows. -/
def specWeightedSum (s : Sheet) (rows : List ℕ) : ℚ :=
  (rows.map fun r =>
    if specContributes s r then
      (rowValeur (s ("C" ++ toString r)) (s ("D" ++ toString r))
        (s ("E" ++ toString r)) (s ("F" ++ toString r))).getD 0 *
        valueOr0 (s ("A" ++ toString r))
    else 0).sum

/-- The claim's weight total over a group's rows. -/
def specWeightTotal (s : Sheet) (rows : List ℕ) : ℚ :=
  (rows.map fun r =>
    if specContributes s r then valueOr0 (s ("A" ++ toString r)) else 0).sum

/-- The claim's per-group average. -/
def specAvg (s : Sheet) (rows : List ℕ) : ℚ :=
  if specWeightTotal s rows = 0 then 0
  else specWeightedSum s rows / specWeightTotal s rows

lemma calcStep_foldl (s : Sheet) (rows : List ℕ) (x y : ℚ) :
    rows.foldl (calcStep s) (x, y) =
      (x + specWeightedSum s rows, y + specWeightTotal s rows) := by
  induction rows generalizing x y with
  | nil => simp [specWeightedSum, specWeightTotal]
  | cons r rest ih =>
      show rest.foldl (calcStep s) (calcStep s (x, y) r) = _
      have hstep : calcStep s (x, y) r =
          (x + (if specContributes s r then
              (rowValeur (s ("C" ++ toString r)) (s ("D" ++ toString r))
                (s ("E" ++ toString r)) (s ("F" ++ toString r))).getD 0 *
                valueOr0 (s ("A" ++ toString r)) else 0),
           y + (if specContributes s r then valueOr0 (s ("A" ++ toString r)) else 0)) := by
        cases hv : rowValeur (s ("C" ++ toString r)) (s ("D" ++ toString r))
            (s ("E" ++ toString r)) (s ("F" ++ toString r)) with
        | none =>
            have hc : ¬ specContributes s r := by
              intro h
              obtain ⟨h1, h2⟩ := h
              rw [hv] at h1
              exact absurd h1 (by simp)
            simp [calcStep, hv, hc]
        | some valeur =>
            by_cases ha : 0 < valueOr0 (s ("A" ++ toString r))
            · have hc : specContributes s r := ⟨by rw [hv]; rfl, ha⟩
              simp [calcStep, hv, ha, hc]
            · have hc : ¬ specContributes s r := fun h => ha h.2
              simp [calcStep, hv, ha, hc]
      rw [hstep, ih]
      unfold specWeightedSum specWeightTotal
      simp only [List.map_cons, List.sum_cons, Prod.mk.injEq]
      constructor <;> ring

lemma specWeightTotal_nonneg (s : Sheet) (rows : List ℕ) :
    0 ≤ specWeightTotal s rows := by
  unfold specWeightTotal
  apply List.sum_nonneg
  intro x hx
  simp only [List.mem_map] at hx
  obtain ⟨r, hr, rfl⟩ := hx
  by_cases hc : specContributes s r
  · rw [if_pos hc]
    exact le_of_lt hc.2
  · rw [if_neg hc]

lemma calc_eq_specAvg (s : Sheet) (rows : List ℕ) :
    calculerMoyenneCompetence s rows = specAvg s rows := by
  have hfoldl := calcStep_foldl s rows 0 0
  simp only [calculerMoyenneCompetence, hfoldl, zero_add]
  unfold specAvg
  have hnn := specWeightTotal_nonneg s rows
  by_cases h0 : specWeightTotal s rows = 0
  · rw [if_neg (by rw [h0]; exact lt_irrefl 0), if_pos h0]
  · rw [if_pos (lt_of_le_of_ne hnn (Ne.symm h0)), if_neg h0]

/-- C4: the note-calculee fallback computes, for each phase, the
2-decimal rounding of
`(avgC01*wC01 + avgC03*wC03 + avgC08*wC08 + avgC10*wC10) * 20/3 + bonus`,
where each group average is the weighted sum over weight total of that
group's fixed rows (0 when the weight total is 0), a row contributing
its marked-column position (0..3) times its row weight and nothing
when no column carries the mark or the weight is not positive; the
group weights and the bonus come from the fixed cells of the layout
table, and the groups absent for revue1 (c08, c10) contribute 0. -/
theorem C4_note_formula (s : Sheet) :
    noteFallback s "stage" = some (round2
      ((specAvg s [21, 22, 23, 24, 26] * valueOr0 (s "A19") +
        specAvg s [33, 34, 35, 36, 38] * valueOr0 (s "A31") +
        specAvg s [45, 46, 47, 49] * valueOr0 (s "A43") +
        specAvg s [56, 57, 58, 59, 61] * valueOr0 (s "A54")) * 20 / 3 +
        valueOr0 (s "C63"))) ∧
    noteFallback s "revue1" = some (round2
      ((specAvg s [20, 21, 22, 23, 25] * valueOr0 (s "A18") +
        specAvg s [32, 33, 34, 35, 37] * valueOr0 (s "A30") + 0 + 0) * 20 / 3 +
        valueOr0 (s "C63"))) ∧
    noteFallback s "revue2" = some (round2
      ((specAvg s [20, 21, 22, 23, 25] * valueOr0 (s "A18") +
        specAvg s [32, 33, 34, 35, 37] * valueOr0 (s "A30") +
        specAvg s [44, 45, 46, 47, 49] * valueOr0 (s "A42") +
        specAvg s [56, 57, 58, 59, 61] * valueOr0 (s "A54")) * 20 / 3 +
        valueOr0 (s "C63"))) ∧
    noteFallback s "revue3" = some (round2
      ((specAvg s [20, 21, 22, 23, 25] * valueOr0 (s "A18") +
        specAvg s [32, 33, 34, 35, 37] * valueOr0 (s "A30") +
        specAvg s [44, 45, 46, 47, 49] * valueOr0 (s "A42") +
        specAvg s [56, 57, 58, 59, 61] * valueOr0 (s "A54")) * 20 / 3 +
        valueOr0 (s "C63"))) ∧
    noteFallback s "soutenance" = some (round2
      ((specAvg s [20, 21, 22, 23, 25] * valueOr0 (s "A18") +
        specAvg s [32, 33, 34, 35, 37] * valueOr0 (s "A30") +
        specAvg s [44, 45, 46, 47, 49] * valueOr0 (s "A42") +
        specAvg s [56, 57, 58, 59, 61] * valueOr0 (s "A54")) * 20 / 3 +
        valueOr0 (s "C63"))) := by
  have hstage : lignesConfig "stage" =
      some ⟨[21, 22, 23, 24, 26], [33, 34, 35, 36, 38], some [45, 46, 47, 49],
        some [56, 57, 58, 59, 61], "A19", "A31", some "A43", some "A54"⟩ := rfl
  have hr1 : lignesConfig "revue1" =
      some ⟨[20, 21, 22, 23, 25], [32, 33, 34, 35, 37], none, none,
        "A18", "A30", none, none⟩ := rfl
  have hr2 : lignesConfig "revue2" =
      some ⟨[20, 21, 22, 23, 25], [32, 33, 34, 35, 37], some [44, 45, 46, 47, 49],
        some [56, 57, 58, 59, 61], "A18", "A30", some "A42", some "A54"⟩ := rfl
  have hr3 : lignesConfig "revue3" =
      some ⟨[20, 21, 22, 23, 25], [32, 33, 34, 35, 37], some [44, 45, 46, 47, 49],
        some [56, 57, 58, 59, 61], "A18", "A30", some "A42", some "A54"⟩ := rfl
  have hso : lignesConfig "soutenance" =
      some ⟨[20, 21, 22, 23, 25], [32, 33, 34, 35, 37], some [44, 45, 46, 47, 49],
        some [56, 57, 58, 59, 61], "A18", "A30", some "A42", some "A54"⟩ := rfl
  refine ⟨?_, ?_, ?_, ?_, ?_⟩
  · simp only [noteFallback, hstage, Option.map_some', computeNote, calc_eq_specAvg]
  · simp only [noteFallback, hr1, Option.map_some', computeNote, calc_eq_specAvg]
    congr 2
    ring
  · simp only [noteFallback, hr2, Option.map_some', computeNote, calc_eq_specAvg]
  · simp only [noteFallback, hr3, Option.map_some', computeNote, calc_eq_specAvg]
  · simp only [noteFallback, hso, Option.map_some', computeNote, calc_eq_specAvg]

/-- A concrete stage sheet: lowercase mark 'x' in E21 (value 2), row
weight A21 = 1, group weight A19 = 1, everything else empty. -/
def sheetLowerMark : Sheet := fun a =>
  if a = "E21" then CellVal.str "x"
  else if a = "A21" then CellVal.num 1
  else if a = "A19" then CellVal.num 1
  else CellVal.empty

/-- The same sheet with the mark uppercase 'X'. -/
def sheetUpperMark : Sheet := fun a =>
  if a = "E21" then CellVal.str "X"
  else if a = "A21" then CellVal.num 1
  else if a = "A19" then CellVal.num 1
  else CellVal.empty

/-- C9: the calculator's mark test is exactly the lowercase string 'x'
(uppercase 'X' contributes nothing), while the clear pass of the fill
engine treats 'X' as a mark too; on the concrete stage workbook above
the computed score is 13.33 with the lowercase mark and 0 with the
same mark uppercased. -/
theorem C9_uppercase_mark_ignored :
    rowValeur (CellVal.str "X") CellVal.empty CellVal.empty CellVal.empty = none ∧
    rowValeur (CellVal.str "x") CellVal.empty CellVal.empty CellVal.empty = some 0 ∧
    clearCell (CellVal.str "X") = CellVal.empty ∧
    clearCell (CellVal.str "x") = CellVal.empty ∧
    noteFallback sheetLowerMark "stage" = some (1333 / 100 : ℚ) ∧
    noteFallback sheetUpperMark "stage" = some 0 ∧
    noteFallback sheetUpperMark "stage" ≠ noteFallback sheetLowerMark "stage" := by
  have hstage : lignesConfig "stage" =
      some ⟨[21, 22, 23, 24, 26], [33, 34, 35, 36, 38], some [45, 46, 47, 49],
        some [56, 57, 58, 59, 61], "A19", "A31", some "A43", some "A54"⟩ := rfl
  have hlower : noteFallback sheetLowerMark "stage" = some (1333 / 100 : ℚ) := by
    simp only [noteFallback, hstage, Option.map_some', computeNote]
    simp +decide [calculerMoyenneCompetence, calcStep, rowValeur, valueOr0, sheetLowerMark,
      List.foldl]
    norm_num [round2]
  have hupper : noteFallback sheetUpperMark "stage" = some 0 := by
    simp only [noteFallback, hstage, Option.map_some', computeNote]
    simp +decide [calculerMoyenneCompetence, calcStep, rowValeur, valueOr0, sheetUpperMark,
      List.foldl]
    norm_num [round2]
  refine ⟨by decide, by decide, by decide, by decide, hlower, hupper, ?_⟩
  rw [hlower, hupper]
  intro h
  have := Option.some.inj h
  norm_num at this

/- ------------------------------------------------------------------
   C10: GET /api/eleves/:id/note-calculee/:semestre (lines 1017-1148).
   ------------------------------------------------------------------ -/

/-- The JSON value sent as `note_calculee`. -/
inductive NotePayload where
  | nullPayload
  | undefPayload
  | cellPayload (v : CellVal)
  | numPayload (q : ℚ)
deriving DecidableEq, Repr

/-- An HTTP response of the note-calculee endpoint. -/
inductive NoteResp where
  | jsonNote (p : NotePayload)
  | errResp (code : ℕ)
deriving DecidableEq, Repr

/-- What one invocation of the endpoint observes. -/
structure NoteRouteEnv where
  eleveFound : Bool
  fileExists : Bool
  noteCellConfigured : Option String
  sheetPresent : Bool
  sheet : Sheet

/-- Control-flow of the handler: unknown student → 404; missing output
file, no `note_calculee` cell configured for the phase, or missing
sheet → success with `null`; otherwise the stored cell value, or the
fallback recomputation when the cell reads as `undefined` (the
swallowed TypeError of an unknown semestre leaves it `undefined`). -/
def noteCalculeeRoute (env : NoteRouteEnv) (semestre : String) : NoteResp :=
  if env.eleveFound = false then NoteResp.errResp 404
  else if env.fileExists = false then NoteResp.jsonNote NotePayload.nullPayload
  else
    match env.noteCellConfigured with
    | none => NoteResp.jsonNote NotePayload.nullPayload
    | some cellAddr =>
        if env.sheetPresent = false then NoteResp.jsonNote NotePayload.nullPayload
        else
          match env.sheet cellAddr with
          | CellVal.empty =>
              match noteFallback env.sheet semestre with
              | some q => NoteResp.jsonNote (NotePayload.numPayload q)
              | none => NoteResp.jsonNote NotePayload.undefPayload
          | v => NoteResp.jsonNote (NotePayload.cellPayload v)

/-- C10: whenever the student exists, the endpoint answers with a
success JSON — `null` when the output file does not exist, when no
note_calculee cell is configured for the phase, or when the phase's
sheet is absent — and never with an error response. -/
theorem C10_note_route_null_success (env : NoteRouteEnv) (semestre : String)
    (h : env.eleveFound = true) :
    (env.fileExists = false →
        noteCalculeeRoute env semestre = NoteResp.jsonNote NotePayload.nullPayload) ∧
    (env.fileExists = true → env.noteCellConfigured = none →
        noteCalculeeRoute env semestre = NoteResp.jsonNote NotePayload.nullPayload) ∧
    (env.fileExists = true → env.sheetPresent = false →
        (∃ a, env.noteCellConfigured = some a) →
        noteCalculeeRoute env semestre = NoteResp.jsonNote NotePayload.nullPayload) ∧
    (∃ p, noteCalculeeRoute env semestre = NoteResp.jsonNote p) := by
  obtain ⟨ef, fe, ncc, sp, sh⟩ := env
  simp only at h
  subst h
  refine ⟨?_, ?_, ?_, ?_⟩
  · intro hfe
    simp only at hfe
    subst hfe
    rfl
  · intro hfe hncc
    simp only at hfe hncc
    subst hfe
    subst hncc
    rfl
  · intro hfe hsp ⟨a, hncc⟩
    simp only at hfe hsp hncc
    subst hfe
    subst hsp
    subst hncc
    rfl
  · cases fe with
    | false => exact ⟨NotePayload.nullPayload, rfl⟩
    | true =>
        cases ncc with
        | none => exact ⟨NotePayload.nullPayload, rfl⟩
        | some addr =>
            cases sp with
            | false => exact ⟨NotePayload.nullPayload, rfl⟩
            | true =>
                cases hv : sh addr with
                | empty =>
                    cases hq : noteFallback sh semestre with
                    | some q =>
                        refine ⟨NotePayload.numPayload q, ?_⟩
                        simp [noteCalculeeRoute, hv, hq]
                    | none =>
                        refine ⟨NotePayload.undefPayload, ?_⟩
                        simp [noteCalculeeRoute, hv, hq]
                | str t =>
                    refine ⟨NotePayload.cellPayload (CellVal.str t), ?_⟩
                    simp [noteCalculeeRoute, hv]
                | num q =>
                    refine ⟨NotePayload.cellPayload (CellVal.num q), ?_⟩
                    simp [noteCalculeeRoute, hv]
                | nan =>
                    refine ⟨NotePayload.cellPayload CellVal.nan, ?_⟩
                    simp [noteCalculeeRoute, hv]

/-- C10 witness: a concrete environment (student found, file absent)
answered with the `null` success payload, via the theorem. -/
theorem C10_note_route_null_success_witness :
    noteCalculeeRoute ⟨true, false, some "E64", true, fun _ => CellVal.empty⟩ "stage" =
      NoteResp.jsonNote NotePayload.nullPayload :=
  (C10_note_route_null_success ⟨true, false, some "E64", true, fun _ => CellVal.empty⟩
    "stage" rfl).1 rfl
